import Mathlib

/-!
# Verification of the Quest_Deployment camera-stream manager and QR-scanner widgets

Shallow embedding of `src/quest-app/src/lib/cameraStreamManager.ts` (two
concatenated variants), `src/quest-app/src/components/ui/QRScanner.tsx`,
and the scanner variants in `src/unnamed/part_001` / `part_002` / `part_003`.

Conventions of the embedding:
* `MediaStream` / `MediaStreamTrack` model the browser objects with exactly the
  attributes the code consults (track kind and `readyState`), plus a numeric
  `sid` standing for JavaScript object identity.
* `navigator.mediaDevices.getUserMedia` is modelled by an environment: one
  `GUMResult` per constraint option (either a stream, or a thrown error
  carrying a message string).
* Asynchronous interleaving (the `isInitializing` busy flag and the polling
  wait loop) is modelled by an explicit two-task step machine: one step of the
  machine runs one task from one suspension point (an `await`) to the next;
  all the code between two `await`s runs atomically, exactly as JavaScript's
  single-threaded event loop executes it.
-/

namespace QuestDeployment

/-! ## Browser media objects -/

inductive TrackKind
  | video
  | audio
deriving DecidableEq, Repr

inductive ReadyState
  | live
  | ended
deriving DecidableEq, Repr

structure MediaStreamTrack where
  kind : TrackKind
  readyState : ReadyState
deriving DecidableEq, Repr

/-- A browser `MediaStream`: `sid` models JavaScript object identity. -/
structure MediaStream where
  sid : Nat
  tracks : List MediaStreamTrack
deriving DecidableEq, Repr

/-- `stream.getVideoTracks()`. -/
def MediaStream.getVideoTracks (s : MediaStream) : List MediaStreamTrack :=
  s.tracks.filter (fun t => t.kind == .video)

/-- The acceptance test of the acquisition loop
(`cameraStreamManager.ts`, lines 86-92):
`stream.getTracks().length > 0` and the first video track
(`stream.getVideoTracks()[0]`) exists and has `readyState === 'live'`. -/
def streamWorks (s : MediaStream) : Bool :=
  decide (0 < s.tracks.length) &&
    match s.getVideoTracks.head? with
    | some t => t.readyState == .live
    | none => false

/-- Result of one `navigator.mediaDevices.getUserMedia(...)` call:
either a stream, or a thrown error with a message. -/
inductive GUMResult
  | ok (s : MediaStream)
  | err (msg : String)
deriving DecidableEq, Repr

/-! ## The acquisition fallback loop (`cameraStreamManager.ts`, lines 78-109)

`runLoop outcomes lastError` runs the `for` loop over the constraint options,
given the outcome of `getUserMedia` for each option in order:
* `.ok s` with `streamWorks s`  : `break` with the stream accepted;
* `.ok s` without a live track  : every track of `s` is stopped, `stream` is
  reset to `null`, and the next option is tried;
* `.err m`                      : `lastError` is updated and the next option
  is tried (no stream was assigned, so nothing is stopped).
The result records the accepted stream (if any), the final `lastError`, the
tracks stopped during the loop (in stop order), and the number of
`getUserMedia` calls that were made. -/

structure LoopResult where
  stream : Option MediaStream
  lastError : Option String
  stoppedTracks : List MediaStreamTrack
  callsMade : Nat
deriving DecidableEq, Repr

def runLoop : List GUMResult → Option String → LoopResult
  | [], le => ⟨none, le, [], 0⟩
  | .ok s :: rest, le =>
    if streamWorks s then ⟨some s, le, [], 1⟩
    else
      let r := runLoop rest le
      ⟨r.stream, r.lastError, s.tracks ++ r.stoppedTracks, r.callsMade + 1⟩
  | .err m :: rest, _ =>
    let r := runLoop rest (some m)
    ⟨r.stream, r.lastError, r.stoppedTracks, r.callsMade + 1⟩

/-- An attempt outcome that the loop rejects: a thrown error, or a stream
without a live first video track. -/
def attemptFails : GUMResult → Bool
  | .ok s => !streamWorks s
  | .err _ => true

/-- The tracks of all candidate streams that `getUserMedia` handed out in a
list of outcomes. -/
def okTracks : List GUMResult → List MediaStreamTrack
  | [] => []
  | .ok s :: rest => s.tracks ++ okTracks rest
  | .err _ :: rest => okTracks rest

/-- `lastError` after processing a list of outcomes that were all rejected. -/
def lastErrAfter : List GUMResult → Option String → Option String
  | [], le => le
  | .ok _ :: rest, le => lastErrAfter rest le
  | .err m :: rest, _ => lastErrAfter rest (some m)

/-! ## Manager state and the sequential semantics of the exported functions -/

/-- The module-level mutable state of `cameraStreamManager.ts`:
`stream`, `usageCount`, `isInitializing` (lines 2-4). `usageCount` is a
JavaScript number; we model it as an integer. -/
structure ManagerState where
  stream : Option MediaStream
  usageCount : Int
  isInitializing : Bool
deriving DecidableEq, Repr

def initialManagerState : ManagerState := ⟨none, 0, false⟩

/-- Environment of one acquisition: whether
`navigator.mediaDevices.getUserMedia` exists, and the outcome of
`getUserMedia` for each constraint option in order. -/
structure AcqEnv where
  supported : Bool
  outcomes : List GUMResult
deriving Repr

/-- The message built at line 112 and rethrown wrapped at line 117:
`Camera access failed: All camera initialization attempts failed.
Last error: ...` — an empty or absent last message becomes
`Unknown error` (JavaScript `lastError?.message || 'Unknown error'`). -/
def allFailedMsg (lastError : Option String) : String :=
  "Camera access failed: All camera initialization attempts failed. Last error: " ++
    (match lastError with
     | some m => if m = "" then "Unknown error" else m
     | none => "Unknown error")

def unsupportedMsg : String :=
  "Camera access failed: Camera not supported in this browser"

/-- One call to `getCameraStream` made while no acquisition is in flight
(`isInitializing = false`; calls that overlap an in-flight acquisition are
modelled by the interleaved machine below).  Mirrors lines 6-125:
* a held stream is returned with `usageCount` incremented;
* otherwise the support check, the fallback loop, and on success the stream
  is stored and `usageCount` incremented; on exhaustion the wrapped error is
  thrown and the state left with `stream = null` and `usageCount` untouched.
(The `enumerateDevices` block at lines 24-36 only logs: its own throw is
caught by its own `catch` and swallowed, so it is omitted.) -/
def getCameraStreamRun (env : AcqEnv) (st : ManagerState) :
    Except String MediaStream × ManagerState :=
  match st.stream with
  | some s => (.ok s, { st with usageCount := st.usageCount + 1 })
  | none =>
    if env.supported then
      let r := runLoop env.outcomes none
      match r.stream with
      | some s =>
        (.ok s, { stream := some s, usageCount := st.usageCount + 1,
                  isInitializing := false })
      | none =>
        (.error (allFailedMsg r.lastError),
         { st with stream := none, isInitializing := false })
    else
      (.error unsupportedMsg, { st with isInitializing := false })

/-- `releaseCameraStream` (lines 127-141): floors the count at 0 and stops and
clears the stream when the count reaches 0. -/
def releaseCameraStream (st : ManagerState) : ManagerState :=
  let u := max (st.usageCount - 1) 0
  if u = 0 && st.stream.isSome then
    { stream := none, usageCount := u, isInitializing := st.isInitializing }
  else
    { st with usageCount := u }

/-- `getCameraUsageCount` (lines 143-145). -/
def getCameraUsageCount (st : ManagerState) : Int :=
  st.usageCount

/-- `isStreamActive` (lines 147-149): `stream !== null && !isInitializing`. -/
def isStreamActive (st : ManagerState) : Bool :=
  st.stream.isSome && !st.isInitializing

/-- `getCameraStream` of the `part_003` manager variant (lines 193-257),
called with `getUserMedia` supported.  It makes one primary attempt and, on
any throw inside the `try`, one fallback attempt:
* the primary stream is accepted when `stream.getTracks().length` is nonzero
  — `readyState` is never consulted (lines 224-227);
* a zero-track primary stream makes line 226 throw
  `No camera tracks available` into the variant's own `catch`, which then
  tries the fallback constraints; note the zero-track stream stays assigned
  to the module-level `stream` variable;
* the fallback stream (lines 234-245) is accepted with no check at all;
* if the fallback also throws, the wrapped primary error is rethrown and
  the module state keeps whatever `stream` last held (the zero-track
  primary stream in that branch, `null` otherwise). -/
def getCameraStreamPart003 (primary fallback : GUMResult) (st : ManagerState) :
    Except String MediaStream × ManagerState :=
  match st.stream with
  | some s => (.ok s, { st with usageCount := st.usageCount + 1 })
  | none =>
    match primary with
    | .ok s =>
      if 0 < s.tracks.length then
        (.ok s, { stream := some s, usageCount := st.usageCount + 1,
                  isInitializing := false })
      else
        match fallback with
        | .ok s2 =>
          (.ok s2, { stream := some s2, usageCount := st.usageCount + 1,
                     isInitializing := false })
        | .err _ =>
          (.error "Camera access failed: No camera tracks available",
           { stream := some s, usageCount := st.usageCount,
             isInitializing := false })
    | .err m =>
      match fallback with
      | .ok s2 =>
        (.ok s2, { stream := some s2, usageCount := st.usageCount + 1,
                   isInitializing := false })
      | .err _ =>
        (.error ("Camera access failed: " ++ m),
         { st with stream := none, isInitializing := false })

/-! ## The constraint option lists (for claim C6)

Only the fields the fallback-order claim is about are modelled: the facing
mode descriptor and whether the option constrains anything at all. -/

inductive FacingMode
  | bare (v : String)
  | ideal (v : String)
  | exact (v : String)
deriving DecidableEq, Repr

inductive ConstraintOption
  | videoTrue
  | video (facing : Option FacingMode) (hasSizeHints : Bool)
deriving DecidableEq, Repr

/-- `constraintOptions` of the first manager variant
(`cameraStreamManager.ts`, lines 39-76). -/
def constraintOptionsV1 : List ConstraintOption :=
  [ .video (some (.bare "environment")) true,
    .video (some (.ideal "environment")) true,
    .video (some (.bare "user")) true,
    .video none true,
    .videoTrue ]

/-- `constraintOptions` of the second manager variant concatenated in the same
file (`cameraStreamManager.ts`, lines 202-230). -/
def constraintOptionsV2 : List ConstraintOption :=
  [ .videoTrue,
    .video none true,
    .video (some (.bare "user")) true,
    .video (some (.ideal "environment")) true ]

/-- `cameraOptions` of the `part_002` scanner variant (lines 112-123); the
final `undefined` entry is replaced at the call site by
`{ facingMode: preferredCamera }` (line 138), with `preferredCamera`
defaulting to `'environment'`. -/
def cameraOptionsPart002 : List ConstraintOption :=
  [ .video (some (.bare "environment")) false,
    .video (some (.ideal "environment")) false,
    .video (some (.exact "environment")) false,
    .video (some (.bare "user")) false,
    .video (some (.bare "environment")) false ]

def isRearFacing : ConstraintOption → Bool
  | .video (some (.bare v)) _ => v == "environment"
  | .video (some (.ideal v)) _ => v == "environment"
  | .video (some (.exact v)) _ => v == "environment"
  | _ => false

def isUnconstrained : ConstraintOption → Bool
  | .videoTrue => true
  | _ => false

/-- The ordering shape the spec claims: the list begins with a rear-facing
option and ends with the unconstrained option. -/
def rearFirstUnconstrainedLast (l : List ConstraintOption) : Bool :=
  (match l.head? with
   | some o => isRearFacing o
   | none => false) &&
  (match l.getLast? with
   | some o => isUnconstrained o
   | none => false)

/-! ## Interleaved semantics of `getCameraStream` (two concurrent callers)

`TaskPC` records where a task running `getCameraStream` is suspended:
* `ready`   : the call has been made but the body has not run yet;
* `polling` : inside the waiter loop (lines 8-14), suspended at
  `setTimeout(..., 100)`;
* `inLoop i le` : inside the acquisition `for` loop, suspended at the
  `await getUserMedia` for option `i`, with local `lastError = le`
  (the suspension at `enumerateDevices`, which touches no shared state,
  is folded into `inLoop 0`);
* `retOk s` / `retErr m` : the call returned `s` / threw `m`.

One machine step resumes one task and runs it to its next suspension point;
everything in between is synchronous JavaScript and therefore atomic. -/

inductive TaskPC
  | ready
  | polling
  | inLoop (i : Nat) (lastError : Option String)
  | retOk (s : MediaStream)
  | retErr (msg : String)
deriving DecidableEq, Repr

/-- Shared state seen by both tasks: the three module-level variables, plus
`openCount`, the number of hardware streams `getUserMedia` has handed out
whose tracks have not all been stopped (bookkeeping for the
no-leaked-stream claims; the browser owns this, not the code). -/
structure Shared where
  stream : Option MediaStream
  usageCount : Int
  isInitializing : Bool
  openCount : Nat
deriving DecidableEq, Repr

structure TaskView where
  pc : TaskPC
  gumCalls : Nat
deriving DecidableEq, Repr

/-- `constraintOptions.length` in the first manager variant. -/
def numOptions : Nat := 5

/-- Resume one task from its suspension point and run it to the next one.
`sup` is the `getUserMedia` support check; `env i` is the outcome of the
`getUserMedia` call for option `i` made by this task. -/
def resumeTask (sup : Bool) (env : Nat → GUMResult) (t : TaskView) (sh : Shared) :
    TaskView × Shared :=
  match t.pc with
  | .ready =>
    if sh.isInitializing then
      -- enters the waiter while-loop, suspends at setTimeout
      (⟨.polling, t.gumCalls⟩, sh)
    else
      match sh.stream with
      | some s =>
        -- both guard blocks skipped: usageCount++; return stream
        (⟨.retOk s, t.gumCalls⟩, { sh with usageCount := sh.usageCount + 1 })
      | none =>
        if sup then
          -- isInitializing = true; suspends at the first getUserMedia
          (⟨.inLoop 0 none, t.gumCalls⟩, { sh with isInitializing := true })
        else
          -- throw inside try; finally resets isInitializing; rethrown wrapped
          (⟨.retErr unsupportedMsg, t.gumCalls⟩, sh)
  | .polling =>
    if sh.isInitializing then
      -- while condition still true: suspend at setTimeout again
      (⟨.polling, t.gumCalls⟩, sh)
    else
      match sh.stream with
      | some s =>
        -- `if (stream) return stream;` — note: NO usageCount increment
        (⟨.retOk s, t.gumCalls⟩, sh)
      | none =>
        -- falls through to `if (!stream)` and starts its own acquisition
        if sup then
          (⟨.inLoop 0 none, t.gumCalls⟩, { sh with isInitializing := true })
        else
          (⟨.retErr unsupportedMsg, t.gumCalls⟩, sh)
  | .inLoop i le =>
    -- the awaited getUserMedia for option i resolves
    match env i with
    | .ok s =>
      if streamWorks s then
        -- accepted: break; finally clears the flag; usageCount++; return
        (⟨.retOk s, t.gumCalls + 1⟩,
         { stream := some s, usageCount := sh.usageCount + 1,
           isInitializing := false, openCount := sh.openCount + 1 })
      else
        -- candidate opened, found not live, every track stopped, stream
        -- reset to null — all within one atomic block, so openCount is net
        -- unchanged
        if i + 1 < numOptions then
          (⟨.inLoop (i + 1) le, t.gumCalls + 1⟩, sh)
        else
          (⟨.retErr (allFailedMsg le), t.gumCalls + 1⟩,
           { sh with isInitializing := false })
    | .err m =>
      -- getUserMedia threw: lastError updated, nothing was opened
      if i + 1 < numOptions then
        (⟨.inLoop (i + 1) (some m), t.gumCalls + 1⟩, sh)
      else
        (⟨.retErr (allFailedMsg (some m)), t.gumCalls + 1⟩,
         { sh with isInitializing := false })
  | .retOk _ => (t, sh)
  | .retErr _ => (t, sh)

/-- The whole two-task system: support flag, each task's `getUserMedia`
environment, the two task states and the shared state. -/
structure Machine where
  sup : Bool
  envA : Nat → GUMResult
  envB : Nat → GUMResult
  taskA : TaskView
  taskB : TaskView
  shared : Shared

/-- One scheduling step: `true` runs task A, `false` runs task B. -/
def Machine.step (m : Machine) (b : Bool) : Machine :=
  if b then
    let r := resumeTask m.sup m.envA m.taskA m.shared
    { m with taskA := r.1, shared := r.2 }
  else
    let r := resumeTask m.sup m.envB m.taskB m.shared
    { m with taskB := r.1, shared := r.2 }

def Machine.run (m : Machine) : List Bool → Machine
  | [] => m
  | b :: rest => (m.step b).run rest

/-- Both tasks about to call `getCameraStream` on the pristine module state. -/
def initMachine (sup : Bool) (envA envB : Nat → GUMResult) : Machine :=
  ⟨sup, envA, envB, ⟨.ready, 0⟩, ⟨.ready, 0⟩, ⟨none, 0, false, 0⟩⟩

def TaskPC.inAcqLoop : TaskPC → Bool
  | .inLoop _ _ => true
  | _ => false

/-- The inductive invariant of the two-task machine:
1. `isInitializing` is set exactly while some task is inside the acquisition
   loop, so at most one task can be there (no two concurrent hardware
   requests);
2. never both tasks in the loop;
3. the number of open hardware streams is 1 when the shared reference is
   held and 0 otherwise (so never two open streams);
4./5. a task that returned a stream returned exactly the shared stream;
6. while an acquisition is in flight the shared reference is null. -/
def InvParts (pc1 pc2 : TaskPC) (sh : Shared) : Prop :=
  (sh.isInitializing = (pc1.inAcqLoop || pc2.inAcqLoop)) ∧
  (pc1.inAcqLoop && pc2.inAcqLoop) = false ∧
  (sh.openCount = if sh.stream.isSome then 1 else 0) ∧
  (∀ s, pc1 = .retOk s → sh.stream = some s) ∧
  (∀ s, pc2 = .retOk s → sh.stream = some s) ∧
  (sh.isInitializing = true → sh.stream = none)

def Machine.Inv (m : Machine) : Prop :=
  InvParts m.taskA.pc m.taskB.pc m.shared

/-! ## The scanner widget (`src/unnamed/part_002`)

`initScanner` is an asynchronous function; its suspension points, in order:
* suspension 0 : the initial `setTimeout(initScanner, 200)` (line 208);
* suspension 1 : `await safeCleanup()` plus the 300 ms settling delay
  (lines 84-87);
* suspension `2 + i` : the `await scanner.start(...)` for camera option `i`
  (line 137).

Supersession (a newer effect run, a deactivation or an unmount) makes the
attempt stale by bumping `initializationAttempt.current`.  The environment
records during which suspension the attempt became stale (`staleFrom = some j`
when it happens during suspension `j`; `none` when it never does).  The
staleness checks of the code read the oracle:
* `staleAt _ 0` : the entry check at line 74 (after suspension 0);
* `staleAt _ 1` : the recheck at line 90 (after suspension 1) — this is also
  the loop-top check for option 0 (line 130), which runs before any start;
* `staleAt _ (1+i)` : the loop-top check before starting option `i` (the
  check performed after suspension `1 + i`, the latest one that precedes it).

Crucially, the success path after `await scanner.start(...)` resolves
(lines 152-155) performs NO staleness check before calling
`onScannerInit(true)`, and neither does the exhaustion path (lines 176-198)
before calling `onScannerInit(false)` / `onScanError`. -/

/-- The decode result the engine passes to the success callback alongside the
raw decoded text. -/
structure DecodedResult where
  payload : String
deriving DecidableEq, Repr

/-- A callback invocation observable by the caller of the widget. -/
inductive ScanEvent
  | initCb (success : Bool)
  | errCb (msg : String)
  | successCb (text : String) (result : DecodedResult)
deriving DecidableEq, Repr

/-- Outcome of `scanner.start(...)` for one camera option. -/
inductive StartOutcome
  | started
  | failed (msg : String)
deriving DecidableEq, Repr

structure ScannerEnv where
  startOutcomes : Nat → StartOutcome
  staleFrom : Option Nat

/-- Whether a staleness check performed after suspension `p` sees the attempt
as superseded: yes iff the supersession happened during suspension `j ≤ p`. -/
def staleAt (staleFrom : Option Nat) (p : Nat) : Bool :=
  match staleFrom with
  | some j => decide (j ≤ p)
  | none => false

/-- `cameraOptions.length` in `part_002` (line 112-123). -/
def numCameraOptions : Nat := 5

/-- Substring test mirroring JavaScript `String.prototype.includes`. -/
def charsStartWith : List Char → List Char → Bool
  | [], _ => true
  | _ :: _, [] => false
  | p :: ps, c :: cs => p == c && charsStartWith ps cs

def charsContain : List Char → List Char → Bool
  | s, pat =>
    if charsStartWith pat s then true
    else
      match s with
      | [] => false
      | _ :: cs => charsContain cs pat

def strContains (s pat : String) : Bool :=
  charsContain s.data pat.data

def permissionDeniedMsg : String :=
  "Camera permission denied. Please allow camera access and refresh the page."

def noCameraMsg : String :=
  "No camera found. Please ensure your device has a camera and try refreshing the page."

def notSupportedMsg : String :=
  "Camera not supported in this browser. Please try Chrome or Safari."

def inUseMsg : String :=
  "Camera is already in use by another application. Please close other camera apps and try again."

/-- The error translation of `part_002` (lines 185-194): keyword matching on
the raw message via `errorMessage.includes(...)`, falling through to the raw
message unmodified. -/
def translateScannerError (msg : String) : String :=
  if strContains msg "Permission" || strContains msg "NotAllowedError" then
    permissionDeniedMsg
  else if strContains msg "NotFoundError" || strContains msg "Requested device not found" then
    noCameraMsg
  else if strContains msg "NotSupportedError" then
    notSupportedMsg
  else if strContains msg "NotReadableError" then
    inUseMsg
  else msg

/-- The camera-option loop of `part_002` (lines 128-178) together with the
exhaustion handler (lines 176-198).  `remaining + i = numCameraOptions`;
`le` is the running `lastError`.  Returns the emitted callback events and
whether the scanner started.
* Loop top, option `i` (line 130): staleness check `staleAt _ (1+i)` — a
  stale attempt `return`s silently, skipping even the exhaustion handler.
* `start` succeeds (lines 152-155): `onScannerInit(true)`, `break` —
  with no staleness check.
* `start` fails (lines 157-173): `lastError` updated, partial start stopped,
  next option tried.
* Loop exhausted (lines 176-178, 180-198): `throw lastError ||
  Error('All camera options failed')`, caught, translated, then
  `onScannerInit(false)` and `onScanError` — with no staleness check. -/
def scannerLoopAux (env : ScannerEnv) : Nat → Nat → Option String → List ScanEvent × Bool
  | 0, _, le =>
    let raw := match le with
               | some m => m
               | none => "All camera options failed"
    ([.initCb false, .errCb (translateScannerError raw)], false)
  | r + 1, i, le =>
    if staleAt env.staleFrom (1 + i) then ([], false)
    else
      match env.startOutcomes i with
      | .started => ([.initCb true], true)
      | .failed m => scannerLoopAux env r (i + 1) (some m)

/-- One run of `initScanner` (lines 72-205): the entry staleness check
(line 74), the cleanup + settling delay, the recheck (line 90), then the
camera-option loop.  Returns the emitted events and whether a decode session
started. -/
def initScannerRun (env : ScannerEnv) : List ScanEvent × Bool :=
  if staleAt env.staleFrom 0 then ([], false)
  else if staleAt env.staleFrom 1 then ([], false)
  else scannerLoopAux env numCameraOptions 0 none

/-- A full activation: `initScanner`, then — if a session started — one
`successCb` per decoded frame (the callback registered at lines 140-143
passes the raw decoded text and the engine's decode result through). -/
def scannerRun (env : ScannerEnv) (frames : List (String × DecodedResult)) :
    List ScanEvent :=
  let r := initScannerRun env
  r.1 ++ (if r.2 then frames.map (fun f => .successCb f.1 f.2) else [])

/-! ## Scanner component lifecycle (claims about `safeCleanup` and the
activation guard; `part_002` lines 37-65 and 67-68, `part_001` lines 32-36) -/

/-- The `Html5QrcodeScannerState` values the code distinguishes. -/
inductive EngineState
  | notStarted
  | scanning
  | paused
deriving DecidableEq, Repr

/-- Component-instance state: the `scanner` ref, the `isCleaningUp` and
`isInitializing` flags, plus `leakedLive` — the count of engines that were
overwritten while still scanning without being stopped (a leaked capture
session; the code never does this, which is what the idempotence claim
needs). -/
structure CompState where
  scanner : Option EngineState
  isCleaningUp : Bool
  isInitializing : Bool
  leakedLive : Nat
deriving DecidableEq, Repr

def initialCompState : CompState := ⟨none, false, false, 0⟩

/-- Number of live decode/capture sessions attributable to the component:
the current engine if it is scanning, plus any leaked ones. -/
def liveSessions (s : CompState) : Nat :=
  s.leakedLive + (if s.scanner = some .scanning then 1 else 0)

/-- `safeCleanup` (`part_002` lines 37-65): a no-op unless an engine is held
and no cleanup is running; otherwise stop the engine if it is scanning or
paused (stop and clear failures are caught and swallowed — the function never
throws), clear it, null the ref and drop the flag. -/
def safeCleanup (s : CompState) : CompState :=
  if s.scanner.isSome && !s.isCleaningUp then
    { scanner := none, isCleaningUp := false,
      isInitializing := s.isInitializing, leakedLive := s.leakedLive }
  else s

/-- One activation attempt: the effect-body guard
`if (!isActive || !qrRef.current || isInitializing || isCleaningUp.current)
return;` (`part_002` line 68, `part_001` line 35), then `initScanner`, which
runs `safeCleanup` before constructing the new engine (lines 84, 102) and
starts it (`startOk` tells whether some camera option started).  Assigning
the `scanner` ref while it still holds a scanning engine would leak that
session; the cleanup-first discipline prevents it. -/
def activateStep (isActive hasContainer startOk : Bool) (s : CompState) : CompState :=
  if !isActive || !hasContainer || s.isInitializing || s.isCleaningUp then s
  else
    let s1 := safeCleanup s
    { scanner := some (if startOk then .scanning else .notStarted),
      isCleaningUp := s1.isCleaningUp,
      isInitializing := false,
      leakedLive := s1.leakedLive +
        (if s1.scanner = some .scanning then 1 else 0) }

/-! ## Concrete fixtures and abbreviations used by the theorems -/

def liveTrack : MediaStreamTrack := ⟨.video, .live⟩

/-- A stream with one live video track: accepted by the acquisition loop. -/
def liveStream : MediaStream := ⟨0, [liveTrack]⟩

/-- A stream whose only video track has already ended: handed out by
`getUserMedia` but rejected by the liveness test. -/
def deadStream : MediaStream := ⟨1, [⟨.video, .ended⟩]⟩

/-- The machine after running a schedule from the pristine two-caller start. -/
def finalMachine (sup : Bool) (envA envB : Nat → GUMResult) (sched : List Bool) :
    Machine :=
  (initMachine sup envA envB).run sched

/-- `isStreamActive` read on the shared state of the interleaved machine
(same body as the exported function: `stream !== null && !isInitializing`). -/
def Shared.readActive (sh : Shared) : Bool :=
  sh.stream.isSome && !sh.isInitializing

/-! ## Lemmas about the acquisition fallback loop -/

theorem runLoop_append_fails (pre rest : List GUMResult) (le : Option String)
    (hf : ∀ r ∈ pre, attemptFails r = true) :
    runLoop (pre ++ rest) le =
      ⟨(runLoop rest (lastErrAfter pre le)).stream,
       (runLoop rest (lastErrAfter pre le)).lastError,
       okTracks pre ++ (runLoop rest (lastErrAfter pre le)).stoppedTracks,
       pre.length + (runLoop rest (lastErrAfter pre le)).callsMade⟩ := by
  induction pre generalizing le with
  | nil =>
    simp [lastErrAfter, okTracks]
  | cons hd tl ih =>
    have htl : ∀ r ∈ tl, attemptFails r = true := fun r hr => hf r (by simp [hr])
    cases hd with
    | ok s =>
      have hfs : streamWorks s = false := by
        have h := hf (.ok s) (by simp)
        simpa [attemptFails] using h
      have hrec := ih le htl
      simp only [List.cons_append, runLoop, hfs, Bool.false_eq_true, if_false, List.append_eq]
      rw [hrec]
      simp [okTracks, lastErrAfter, List.append_assoc]
      all_goals omega
    | err m =>
      have hrec := ih (some m) htl
      simp only [List.cons_append, runLoop, List.append_eq]
      rw [hrec]
      simp [okTracks, lastErrAfter]
      all_goals omega

theorem runLoop_all_fail (outs : List GUMResult) (le : Option String)
    (hf : ∀ r ∈ outs, attemptFails r = true) :
    runLoop outs le = ⟨none, lastErrAfter outs le, okTracks outs, outs.length⟩ := by
  have h := runLoop_append_fails outs [] le hf
  simpa [runLoop] using h

theorem runLoop_first_success (pre rest : List GUMResult) (s : MediaStream)
    (le : Option String) (hf : ∀ r ∈ pre, attemptFails r = true)
    (hw : streamWorks s = true) :
    runLoop (pre ++ .ok s :: rest) le =
      ⟨some s, lastErrAfter pre le, okTracks pre, pre.length + 1⟩ := by
  have h := runLoop_append_fails pre (.ok s :: rest) le hf
  rw [h]
  simp [runLoop, hw]

/-! ## Lemmas about the two-task machine -/

@[simp] theorem inAcqLoop_ready : TaskPC.ready.inAcqLoop = false := rfl

@[simp] theorem inAcqLoop_polling : TaskPC.polling.inAcqLoop = false := rfl

@[simp] theorem inAcqLoop_inLoop (i : Nat) (le : Option String) :
    (TaskPC.inLoop i le).inAcqLoop = true := rfl

@[simp] theorem inAcqLoop_retOk (s : MediaStream) : (TaskPC.retOk s).inAcqLoop = false := rfl

@[simp] theorem inAcqLoop_retErr (m : String) : (TaskPC.retErr m).inAcqLoop = false := rfl

theorem invParts_symm {pc1 pc2 : TaskPC} {sh : Shared} (h : InvParts pc1 pc2 sh) :
    InvParts pc2 pc1 sh := by
  obtain ⟨h1, h2, h3, h4, h5, h6⟩ := h
  exact ⟨h1.trans (Bool.or_comm _ _), (Bool.and_comm _ _).trans h2, h3, h5, h4, h6⟩

theorem invParts_resume (sup : Bool) (env : Nat → GUMResult) (t : TaskView) (pc2 : TaskPC)
    (sh : Shared) (h : InvParts t.pc pc2 sh) :
    InvParts (resumeTask sup env t sh).1.pc pc2 (resumeTask sup env t sh).2 := by
  obtain ⟨h1, h2, h3, h4, h5, h6⟩ := h
  obtain ⟨pc, g⟩ := t
  cases pc with
  | ready =>
    cases hini : sh.isInitializing with
    | true =>
      simp only [resumeTask, hini, if_true]
      exact ⟨by simpa using h1, by simp, h3, fun s hs => TaskPC.noConfusion hs, h5, h6⟩
    | false =>
      have hp2 : pc2.inAcqLoop = false := by simpa [hini] using h1.symm
      cases hstream : sh.stream with
      | some s =>
        simp only [resumeTask, hini, Bool.false_eq_true, if_false, hstream]
        refine ⟨by simp [hp2], by simp, by simpa [hstream] using h3, ?_, ?_, ?_⟩
        · intro s' hs
          cases hs
          rfl
        · intro s' hs
          have hc := h5 s' hs
          rw [hstream] at hc
          exact hc
        · intro hh
          simp at hh
      | none =>
        cases hsup : sup with
        | true =>
          simp only [resumeTask, hini, Bool.false_eq_true, if_false, hstream, hsup, if_true]
          refine ⟨by simp, by simp [hp2], by simpa [hstream] using h3, ?_, ?_, ?_⟩
          · intro s' hs
            exact TaskPC.noConfusion hs
          · intro s' hs
            have hc := h5 s' hs
            rw [hstream] at hc
            exact Option.noConfusion hc
          · intro _
            rfl
        | false =>
          simp only [resumeTask, hini, Bool.false_eq_true, if_false, hstream, hsup]
          exact ⟨by simpa using h1, by simp, h3, fun s hs => TaskPC.noConfusion hs, h5, h6⟩
  | polling =>
    cases hini : sh.isInitializing with
    | true =>
      simp only [resumeTask, hini, if_true]
      exact ⟨by simpa using h1, by simp, h3, fun s hs => TaskPC.noConfusion hs, h5, h6⟩
    | false =>
      have hp2 : pc2.inAcqLoop = false := by simpa [hini] using h1.symm
      cases hstream : sh.stream with
      | some s =>
        simp only [resumeTask, hini, Bool.false_eq_true, if_false, hstream]
        refine ⟨by simpa using h1, by simp, h3, ?_, h5, h6⟩
        · intro s' hs
          cases hs
          exact hstream
      | none =>
        cases hsup : sup with
        | true =>
          simp only [resumeTask, hini, Bool.false_eq_true, if_false, hstream, hsup, if_true]
          refine ⟨by simp, by simp [hp2], by simpa [hstream] using h3, ?_, ?_, ?_⟩
          · intro s' hs
            exact TaskPC.noConfusion hs
          · intro s' hs
            have hc := h5 s' hs
            rw [hstream] at hc
            exact Option.noConfusion hc
          · intro _
            rfl
        | false =>
          simp only [resumeTask, hini, Bool.false_eq_true, if_false, hstream, hsup]
          exact ⟨by simpa using h1, by simp, h3, fun s hs => TaskPC.noConfusion hs, h5, h6⟩
  | inLoop i le =>
    have hini : sh.isInitializing = true := by simpa using h1
    have hstream : sh.stream = none := h6 hini
    have hp2 : pc2.inAcqLoop = false := by simpa using h2
    have hopen : sh.openCount = 0 := by simpa [hstream] using h3
    cases henv : env i with
    | ok s =>
      cases hw : streamWorks s with
      | true =>
        simp only [resumeTask, henv, hw, if_true]
        refine ⟨by simp [hp2], by simp, by simp [hopen], ?_, ?_, ?_⟩
        · intro s' hs
          cases hs
          rfl
        · intro s' hs
          have hc := h5 s' hs
          rw [hstream] at hc
          exact Option.noConfusion hc
        · intro hh
          simp at hh
      | false =>
        by_cases hlt : i + 1 < numOptions
        · simp only [resumeTask, henv, hw, Bool.false_eq_true, if_false, hlt, if_true]
          refine ⟨by simp [hini], by simp [hp2], h3, ?_, h5, h6⟩
          · intro s' hs
            exact TaskPC.noConfusion hs
        · simp only [resumeTask, henv, hw, Bool.false_eq_true, if_false, hlt]
          refine ⟨by simp [hp2], by simp, by simpa using h3, ?_, ?_, ?_⟩
          · intro s' hs
            exact TaskPC.noConfusion hs
          · intro s' hs
            simpa using h5 s' hs
          · intro hh
            simp at hh
    | err m =>
      by_cases hlt : i + 1 < numOptions
      · simp only [resumeTask, henv, hlt, if_true]
        refine ⟨by simp [hini], by simp [hp2], h3, ?_, h5, h6⟩
        · intro s' hs
          exact TaskPC.noConfusion hs
      · simp only [resumeTask, henv, hlt]
        refine ⟨by simp [hp2], by simp, by simpa using h3, ?_, ?_, ?_⟩
        · intro s' hs
          exact TaskPC.noConfusion hs
        · intro s' hs
          simpa using h5 s' hs
        · intro hh
          simp at hh
  | retOk s =>
    exact ⟨h1, h2, h3, h4, h5, h6⟩
  | retErr m =>
    exact ⟨h1, h2, h3, h4, h5, h6⟩

theorem machine_step_inv (m : Machine) (b : Bool) (h : m.Inv) : (m.step b).Inv := by
  cases b with
  | true =>
    exact invParts_resume m.sup m.envA m.taskA m.taskB.pc m.shared h
  | false =>
    exact invParts_symm
      (invParts_resume m.sup m.envB m.taskB m.taskA.pc m.shared (invParts_symm h))

theorem machine_run_inv (m : Machine) (sched : List Bool) (h : m.Inv) :
    (m.run sched).Inv := by
  induction sched generalizing m with
  | nil => exact h
  | cons b rest ih => exact ih _ (machine_step_inv m b h)

theorem initMachine_inv (sup : Bool) (envA envB : Nat → GUMResult) :
    (initMachine sup envA envB).Inv := by
  refine ⟨rfl, rfl, rfl, ?_, ?_, ?_⟩
  · intro s hs
    exact TaskPC.noConfusion hs
  · intro s hs
    exact TaskPC.noConfusion hs
  · intro hh
    rfl

theorem finalMachine_inv (sup : Bool) (envA envB : Nat → GUMResult)
    (sched : List Bool) : (finalMachine sup envA envB sched).Inv :=
  machine_run_inv _ sched (initMachine_inv sup envA envB)

/-! ## Lemmas about the scanner loop and component lifecycle -/

theorem lastErrAfter_append (l1 l2 : List GUMResult) (le : Option String) :
    lastErrAfter (l1 ++ l2) le = lastErrAfter l2 (lastErrAfter l1 le) := by
  induction l1 generalizing le with
  | nil => rfl
  | cons hd tl ih => cases hd <;> simp [lastErrAfter, ih]

theorem okTracks_append (l1 l2 : List GUMResult) :
    okTracks (l1 ++ l2) = okTracks l1 ++ okTracks l2 := by
  induction l1 with
  | nil => rfl
  | cons hd tl ih => cases hd <;> simp [okTracks, ih]

theorem scannerLoopAux_first_success (env : ScannerEnv) (j : Nat)
    (h0 : env.staleFrom = none) (hok : env.startOutcomes j = .started)
    (hprev : ∀ k, k < j → ∃ m, env.startOutcomes k = .failed m) :
    ∀ r i le, i + r = numCameraOptions → i ≤ j → j < numCameraOptions →
      scannerLoopAux env r i le = ([.initCb true], true) := by
  intro r
  induction r with
  | zero =>
    intro i le hsum hij hj
    rw [show numCameraOptions = 5 from rfl] at hsum hj
    omega
  | succ r ih =>
    intro i le hsum hij hj
    by_cases hij' : i = j
    · subst hij'
      simp [scannerLoopAux, staleAt, h0, hok]
    · obtain ⟨m, hm⟩ := hprev i (by omega)
      simp only [scannerLoopAux, staleAt, h0, hm]
      exact ih (i + 1) (some m) (by omega) (by omega) hj

theorem scannerLoopAux_exhausts (env : ScannerEnv) (m4 : String)
    (h0 : env.staleFrom = none)
    (hfail : ∀ k, k < numCameraOptions → ∃ m, env.startOutcomes k = .failed m)
    (h4 : env.startOutcomes 4 = .failed m4) :
    ∀ r i le, i + r = numCameraOptions → 0 < r →
      scannerLoopAux env r i le =
        ([.initCb false, .errCb (translateScannerError m4)], false) := by
  intro r
  induction r with
  | zero =>
    intro i le _ hr
    omega
  | succ r ih =>
    intro i le hsum hr
    have hi5 : i < numCameraOptions := by
      rw [show numCameraOptions = 5 from rfl] at hsum ⊢
      omega
    obtain ⟨m, hm⟩ := hfail i hi5
    simp only [scannerLoopAux, staleAt, h0, hm]
    cases r with
    | zero =>
      have hi4 : i = 4 := by
        rw [show numCameraOptions = 5 from rfl] at hsum
        omega
      subst hi4
      rw [h4] at hm
      cases hm
      rfl
    | succ r' =>
      exact ih (i + 1) (some m) (by omega) (by omega)

theorem safeCleanup_clears (s : CompState) (hcl : s.isCleaningUp = false) :
    (safeCleanup s).scanner = none ∧ (safeCleanup s).leakedLive = s.leakedLive := by
  simp only [safeCleanup, hcl]
  cases hsc : s.scanner <;> simp [hsc]

theorem activate_no_leak (a c o : Bool) (s : CompState) (h : s.leakedLive = 0) :
    (activateStep a c o s).leakedLive = 0 := by
  simp only [activateStep]
  split
  · exact h
  · rename_i hguard
    have hcl : s.isCleaningUp = false := by
      cases hc : s.isCleaningUp
      · rfl
      · exact absurd (by simp [hc]) hguard
    have hone := safeCleanup_clears s hcl
    simp [hone.1, hone.2, h]

theorem liveSessions_le_one (s : CompState) (h : s.leakedLive = 0) :
    liveSessions s ≤ 1 := by
  simp only [liveSessions, h, Nat.zero_add]
  split <;> omega

/-! ## Claim theorems -/

/-- Claim C1 (code bug in the source): the claim says every call to
`getCameraStream` that returns a stream — including one that waited for an
in-flight acquisition and reused its result — increments the usage count by
exactly one.  The code's waiter path (`if (stream) return stream;` at
line 13) returns without reaching the `usageCount++` at line 123.  In the
trace below, task A acquires (count goes to 1), task B calls while A's
acquisition is in flight, waits, and reuses A's stream: both calls return the
same stream successfully, yet the usage count is 1, not 2. -/
theorem c1_waiter_call_does_not_increment_usage :
    (finalMachine true (fun _ => .ok liveStream) (fun _ => .ok liveStream)
        [true, false, true, false]).taskA.pc = .retOk liveStream ∧
    (finalMachine true (fun _ => .ok liveStream) (fun _ => .ok liveStream)
        [true, false, true, false]).taskB.pc = .retOk liveStream ∧
    (finalMachine true (fun _ => .ok liveStream) (fun _ => .ok liveStream)
        [true, false, true, false]).shared.usageCount = 1 :=
  ⟨rfl, rfl, rfl⟩

/-- Claim C2: under cooperative single-threaded interleaving, for every
support flag, every pair of per-task `getUserMedia` environments and every
schedule: the two tasks are never both inside the acquisition loop (so no
two hardware `getUserMedia` requests are ever in flight together and no
second hardware stream is opened while one acquisition runs), at most one
hardware stream is open at any reachable point, and any two callers that
both return a stream observe the same stream object. -/
theorem c2_inflight_acquisition_invariants (sup : Bool) (envA envB : Nat → GUMResult)
    (sched : List Bool) :
    ((finalMachine sup envA envB sched).taskA.pc.inAcqLoop &&
      (finalMachine sup envA envB sched).taskB.pc.inAcqLoop) = false ∧
    (finalMachine sup envA envB sched).shared.openCount ≤ 1 ∧
    (∀ sA sB, (finalMachine sup envA envB sched).taskA.pc = .retOk sA →
       (finalMachine sup envA envB sched).taskB.pc = .retOk sB → sA = sB) := by
  obtain ⟨h1, h2, h3, h4, h5, h6⟩ := finalMachine_inv sup envA envB sched
  refine ⟨h2, ?_, ?_⟩
  · rw [h3]
    split <;> omega
  · intro sA sB hA hB
    have ha := h4 sA hA
    have hb := h5 sB hB
    rw [ha] at hb
    exact Option.some.inj hb

/-- Witness for C2: on the concrete overlapped schedule of C1's trace, both
callers finished with the very same stream object and at most one stream was
open. -/
theorem c2_inflight_acquisition_invariants_witness :
    ((finalMachine true (fun _ => .ok liveStream) (fun _ => .err "denied")
        [true, false, true, false]).taskA.pc.inAcqLoop &&
      (finalMachine true (fun _ => .ok liveStream) (fun _ => .err "denied")
        [true, false, true, false]).taskB.pc.inAcqLoop) = false ∧
    (finalMachine true (fun _ => .ok liveStream) (fun _ => .err "denied")
        [true, false, true, false]).shared.openCount ≤ 1 ∧
    liveStream = liveStream := by
  have h := c2_inflight_acquisition_invariants true (fun _ => .ok liveStream)
      (fun _ => .err "denied") [true, false, true, false]
  exact ⟨h.1, h.2.1, h.2.2 liveStream liveStream rfl rfl⟩

/-- Claim C4: when `getUserMedia` is supported but every constraint option
fails to produce a stream with a live first video track, `getCameraStream`
throws the wrapped message carrying the last underlying error, the manager
state is exactly what it was before the call (stream still null, usage count
untouched), and every track of every partially opened candidate stream was
stopped during the loop. -/
theorem c4_exhaustion_state_unchanged (env : AcqEnv) (st : ManagerState)
    (hsup : env.supported = true) (hstream : st.stream = none)
    (hini : st.isInitializing = false)
    (hf : ∀ r ∈ env.outcomes, attemptFails r = true) :
    (getCameraStreamRun env st).1 =
      .error (allFailedMsg (lastErrAfter env.outcomes none)) ∧
    (getCameraStreamRun env st).2 = st ∧
    (runLoop env.outcomes none).stoppedTracks = okTracks env.outcomes ∧
    (∀ m, lastErrAfter env.outcomes none = some m → m ≠ "" →
       (getCameraStreamRun env st).1 =
         .error ("Camera access failed: All camera initialization attempts failed. Last error: " ++ m)) := by
  have hall := runLoop_all_fail env.outcomes none hf
  have hrun : getCameraStreamRun env st =
      (.error (allFailedMsg (lastErrAfter env.outcomes none)),
       { st with stream := none, isInitializing := false }) := by
    simp [getCameraStreamRun, hstream, hsup, hall]
  refine ⟨?_, ?_, ?_, ?_⟩
  · rw [hrun]
  · rw [hrun]
    obtain ⟨s0, u0, i0⟩ := st
    simp only at hstream hini
    subst hstream
    subst hini
    rfl
  · rw [hall]
  · intro m hm hne
    rw [hrun, hm]
    simp [allFailedMsg, hne]

/-- Witness for C4: a permission error followed by a dead candidate stream
exhausts the loop; the state is untouched and the message carries the last
thrown error. -/
theorem c4_exhaustion_state_unchanged_witness :
    (getCameraStreamRun ⟨true, [.err "NotAllowedError", .ok deadStream]⟩
        initialManagerState).1 =
      .error (allFailedMsg (lastErrAfter [.err "NotAllowedError", .ok deadStream] none)) ∧
    (getCameraStreamRun ⟨true, [.err "NotAllowedError", .ok deadStream]⟩
        initialManagerState).2 = initialManagerState ∧
    (getCameraStreamRun ⟨true, [.err "NotAllowedError", .ok deadStream]⟩
        initialManagerState).1 =
      .error ("Camera access failed: All camera initialization attempts failed. Last error: " ++ "NotAllowedError") := by
  have h := c4_exhaustion_state_unchanged
      ⟨true, [.err "NotAllowedError", .ok deadStream]⟩ initialManagerState
      rfl rfl rfl (by decide)
  exact ⟨h.1, h.2.1, h.2.2.2 "NotAllowedError" rfl (by decide)⟩

/-- Claim C5 counterexample: the `part_003` variant cited by the claim
accepts a stream whose only video track has already ended — the primary
attempt passes its track-count check with `readyState` never consulted.
The accepted `deadStream` has no live video track, yet the call returns it
and retains it as the shared stream, refuting the claim for that
acquisition. -/
theorem c5_part003_accepts_dead_stream :
    (getCameraStreamPart003 (.ok deadStream) (.err "unused") initialManagerState).1 =
      .ok deadStream ∧
    (getCameraStreamPart003 (.ok deadStream) (.err "unused")
        initialManagerState).2.stream = some deadStream ∧
    streamWorks deadStream = false ∧
    (∀ t, t ∈ deadStream.getVideoTracks → t.readyState ≠ .live) :=
  ⟨rfl, rfl, rfl, by decide⟩

/-- Claim C5 (amended): in the `cameraStreamManager.ts` acquisition loop a
candidate stream is accepted only if it has a video track whose readiness
state is live (first conjunct), and a candidate without one is treated as a
failed attempt: all of its tracks are stopped and recorded before any stop
of a later option's candidate, and the loop goes on to the remaining
options (second conjunct).  The `part_003` variant, however, accepts the
primary stream whenever it has at least one track of any state — the
liveness of its tracks is never checked (third conjunct) — and accepts
the fallback stream with no check at all (fourth conjunct). -/
theorem c5_accept_only_live_tracks :
    (∀ s : MediaStream, streamWorks s = true →
       ∃ t, t ∈ s.getVideoTracks ∧ t.readyState = .live) ∧
    (∀ (pre rest : List GUMResult) (s : MediaStream) (le : Option String),
       (∀ r ∈ pre, attemptFails r = true) → streamWorks s = false →
       runLoop (pre ++ .ok s :: rest) le =
         ⟨(runLoop rest (lastErrAfter pre le)).stream,
          (runLoop rest (lastErrAfter pre le)).lastError,
          (okTracks pre ++ s.tracks) ++ (runLoop rest (lastErrAfter pre le)).stoppedTracks,
          (pre.length + 1) + (runLoop rest (lastErrAfter pre le)).callsMade⟩) ∧
    (∀ (s : MediaStream) (fb : GUMResult) (st : ManagerState),
       st.stream = none → 0 < s.tracks.length →
       (getCameraStreamPart003 (.ok s) fb st).1 = .ok s) ∧
    (∀ (s2 : MediaStream) (m : String) (st : ManagerState),
       st.stream = none →
       (getCameraStreamPart003 (.err m) (.ok s2) st).1 = .ok s2) := by
  refine ⟨?_, ?_, ?_, ?_⟩
  · intro s hw
    unfold streamWorks at hw
    cases hl : s.getVideoTracks with
    | nil => simp [hl] at hw
    | cons a as =>
      rw [hl] at hw
      simp only [List.head?_cons, Bool.and_eq_true, beq_iff_eq] at hw
      exact ⟨a, by simp [hl], hw.2⟩
  · intro pre rest s le hf hns
    have hpre' : ∀ r ∈ pre ++ [GUMResult.ok s], attemptFails r = true := by
      intro r hr
      rcases List.mem_append.mp hr with h | h
      · exact hf r h
      · simp only [List.mem_singleton] at h
        subst h
        simp [attemptFails, hns]
    have h := runLoop_append_fails (pre ++ [.ok s]) rest le hpre'
    rw [List.append_assoc, List.singleton_append] at h
    rw [h, lastErrAfter_append, okTracks_append]
    simp [lastErrAfter, okTracks, LoopResult.mk.injEq]
  · intro s fb st hst hlen
    simp [getCameraStreamPart003, hst, hlen]
  · intro s2 m st hst
    simp [getCameraStreamPart003, hst]

/-- Witness for C5: `liveStream` is accepted by the manager loop and has a
live video track; a `deadStream` candidate is rejected there with its track
stopped before the next option is tried; the `part_003` variant accepts the
same `deadStream` both as the primary attempt and, unchecked, as the
fallback. -/
theorem c5_accept_only_live_tracks_witness :
    (∃ t, t ∈ liveStream.getVideoTracks ∧ t.readyState = .live) ∧
    runLoop ([] ++ .ok deadStream :: [.ok liveStream]) none =
      ⟨(runLoop [.ok liveStream] (lastErrAfter [] none)).stream,
       (runLoop [.ok liveStream] (lastErrAfter [] none)).lastError,
       (okTracks [] ++ deadStream.tracks) ++
         (runLoop [.ok liveStream] (lastErrAfter [] none)).stoppedTracks,
       (List.length ([] : List GUMResult) + 1) +
         (runLoop [.ok liveStream] (lastErrAfter [] none)).callsMade⟩ ∧
    (getCameraStreamPart003 (.ok deadStream) (.err "fallback unused")
        initialManagerState).1 = .ok deadStream ∧
    (getCameraStreamPart003 (.err "denied") (.ok deadStream)
        initialManagerState).1 = .ok deadStream := by
  have h := c5_accept_only_live_tracks
  exact ⟨h.1 liveStream rfl,
         h.2.1 [] [.ok liveStream] deadStream none (fun r hr => absurd hr (by simp)) rfl,
         h.2.2.1 deadStream (.err "fallback unused") initialManagerState rfl (by decide),
         h.2.2.2 deadStream "denied" initialManagerState rfl⟩

/-- Claim C6 counterexample: the second manager variant's `constraintOptions`
(`cameraStreamManager.ts` lines 202-230) begins with the unconstrained
`video: true` option and ends with an ideal-environment option — the
opposite of the claimed rear-first, unconstrained-last order. -/
theorem c6_order_counterexample :
    rearFirstUnconstrainedLast constraintOptionsV2 = false ∧
    constraintOptionsV2.head? = some .videoTrue ∧
    constraintOptionsV2.getLast? = some (.video (some (.ideal "environment")) true) := by
  refine ⟨rfl, rfl, ?_⟩
  rfl

/-- Claim C6 (amended): the first manager variant's `constraintOptions`
(lines 39-76) run from rear-facing constraints down to the unconstrained
option, and its loop accepts the first option that yields a live stream with
no later `getUserMedia` call made (the call count equals the winner's
position).  The `part_002` scanner's list also begins rear-facing and its
loop ends at the first option that starts, whatever the later outcomes
would be — but its nominally unconstrained last entry is substituted at the
call site by `{ facingMode: preferredCamera }` (environment by
default), so its effective last option is environment-facing rather than
unconstrained.  The second manager variant orders its list the opposite way
(unconstrained `video: true` first, ideal-environment last), per the
counterexample. -/
theorem c6_fallback_order_amended :
    rearFirstUnconstrainedLast constraintOptionsV1 = true ∧
    cameraOptionsPart002.head? = some (.video (some (.bare "environment")) false) ∧
    cameraOptionsPart002.getLast? = some (.video (some (.bare "environment")) false) ∧
    rearFirstUnconstrainedLast cameraOptionsPart002 = false ∧
    (∀ (pre rest : List GUMResult) (s : MediaStream) (le : Option String),
       (∀ r ∈ pre, attemptFails r = true) → streamWorks s = true →
       runLoop (pre ++ .ok s :: rest) le =
         ⟨some s, lastErrAfter pre le, okTracks pre, pre.length + 1⟩) ∧
    (∀ (env : ScannerEnv) (j : Nat), env.staleFrom = none →
       env.startOutcomes j = .started →
       (∀ k, k < j → ∃ m, env.startOutcomes k = .failed m) →
       j < numCameraOptions →
       scannerLoopAux env numCameraOptions 0 none = ([.initCb true], true)) := by
  refine ⟨rfl, rfl, rfl, rfl,
    fun pre rest s le hf hw => runLoop_first_success pre rest s le hf hw, ?_⟩
  intro env j h0 hok hprev hj
  exact scannerLoopAux_first_success env j h0 hok hprev
    numCameraOptions 0 none rfl (Nat.zero_le j) hj

/-- Witness for C6: with a denied first option and a live second, the
manager loop returns the second option's stream having made exactly 2
`getUserMedia` calls — the third option is never tried; the `part_002`
scanner loop likewise stops at its first starting option. -/
theorem c6_fallback_order_amended_witness :
    rearFirstUnconstrainedLast constraintOptionsV1 = true ∧
    runLoop ([.err "denied"] ++ .ok liveStream :: [.err "never tried"]) none =
      ⟨some liveStream, lastErrAfter [.err "denied"] none,
       okTracks [.err "denied"], List.length [GUMResult.err "denied"] + 1⟩ ∧
    scannerLoopAux ⟨fun i => if i = 0 then .failed "denied" else .started, none⟩
        numCameraOptions 0 none = ([.initCb true], true) := by
  have h := c6_fallback_order_amended
  refine ⟨h.1,
    h.2.2.2.2.1 [.err "denied"] [.err "never tried"] liveStream none (by decide) rfl, ?_⟩
  refine h.2.2.2.2.2 ⟨fun i => if i = 0 then .failed "denied" else .started, none⟩ 1
    rfl rfl ?_ (by decide)
  intro k hk
  obtain rfl : k = 0 := by omega
  exact ⟨"denied", rfl⟩

/-- Claim C3 (code bug in the source): the claim says an attempt superseded
before its in-flight camera-open call resolves invokes no caller callback.
In `part_002`, the staleness check sits only at the top of each loop
iteration (line 130), not after `await scanner.start(...)` resolves: the
success path (lines 152-155) calls `onScannerInit(true)` unconditionally.
Here the attempt is superseded during suspension 2 — while option 0's
camera-open call is in flight (`staleAt (some 2) 2 = true`, so every check
from that point on would report it stale) — yet when the start resolves
successfully the stale attempt still fires the `initCb true` callback. -/
theorem c3_stale_attempt_invokes_callback :
    staleAt (some 2) 2 = true ∧
    scannerRun ⟨fun _ => .started, some 2⟩ [] = [.initCb true] :=
  ⟨rfl, rfl⟩

/-- Claim C7: in an activation that is never superseded, if camera option `j`
is the first to start (all earlier ones failed), then the emitted events are
exactly one `onScannerInit(true)` followed by one `onScanSuccess` per decoded
frame carrying the raw text and the engine's decode result; the init
callback fires exactly once, and every decoded frame's payload reaches the
success callback. -/
theorem c7_success_init_once_then_frames (env : ScannerEnv)
    (frames : List (String × DecodedResult)) (j : Nat)
    (h0 : env.staleFrom = none) (hj : j < numCameraOptions)
    (hok : env.startOutcomes j = .started)
    (hprev : ∀ k, k < j → ∃ m, env.startOutcomes k = .failed m) :
    scannerRun env frames =
      .initCb true :: frames.map (fun f => .successCb f.1 f.2) ∧
    (scannerRun env frames).countP
        (fun e => match e with | .initCb _ => true | _ => false) = 1 ∧
    (∀ t r, (t, r) ∈ frames → ScanEvent.successCb t r ∈ scannerRun env frames) := by
  have hloop := scannerLoopAux_first_success env j h0 hok hprev
      numCameraOptions 0 none rfl (Nat.zero_le j) hj
  have hrun : scannerRun env frames =
      .initCb true :: frames.map (fun f => .successCb f.1 f.2) := by
    simp [scannerRun, initScannerRun, staleAt, h0, hloop]
  refine ⟨hrun, ?_, ?_⟩
  · rw [hrun]
    simp only [List.countP_cons, List.countP_map]
    have hz : List.countP
        ((fun e => match e with | ScanEvent.initCb _ => true | _ => false) ∘
          (fun f : String × DecodedResult => ScanEvent.successCb f.1 f.2)) frames = 0 := by
      induction frames with
      | nil => rfl
      | cons hd tl ih => simpa [List.countP_cons, Function.comp] using ih
    simp [hz, Function.comp]
  · intro t r hmem
    rw [hrun]
    exact List.mem_cons_of_mem _ (List.mem_map.mpr ⟨(t, r), hmem, rfl⟩)

/-- Witness for C7: default settings, the first (rear-camera) option starts,
one frame decodes the payload ABC123: the init callback fires true exactly
once and the success callback receives the raw text and the decode result. -/
theorem c7_success_init_once_then_frames_witness :
    scannerRun ⟨fun _ => .started, none⟩ [("ABC123", ⟨"ABC123"⟩)] =
      [.initCb true, .successCb "ABC123" ⟨"ABC123"⟩] ∧
    ScanEvent.successCb "ABC123" ⟨"ABC123"⟩ ∈
      scannerRun ⟨fun _ => .started, none⟩ [("ABC123", ⟨"ABC123"⟩)] := by
  have h := c7_success_init_once_then_frames ⟨fun _ => .started, none⟩
      [("ABC123", ⟨"ABC123"⟩)] 0 rfl (by decide) rfl
      (fun k hk => absurd hk (Nat.not_lt_zero k))
  exact ⟨by simpa using h.1, h.2.2 "ABC123" ⟨"ABC123"⟩ (by simp)⟩

/-- Claim C8: when every camera option fails and the last failure is a
permission-category error, the caller sees `onScannerInit(false)` and an
error callback carrying the translated user-facing permission-denied message
— which is provably not the raw browser error text — and any message
matching none of the known categories passes through unmodified.
Intermediate failures surface nothing: only the exhaustion of the list
emits events (the event list is exactly the two exhaustion callbacks). -/
theorem c8_permission_exhaustion_translated (env : ScannerEnv)
    (frames : List (String × DecodedResult)) (m4 : String)
    (h0 : env.staleFrom = none)
    (hfail : ∀ k, k < numCameraOptions → ∃ m, env.startOutcomes k = .failed m)
    (h4 : env.startOutcomes 4 = .failed m4)
    (hperm : (strContains m4 "Permission" || strContains m4 "NotAllowedError") = true) :
    scannerRun env frames = [.initCb false, .errCb permissionDeniedMsg] ∧
    permissionDeniedMsg ≠ m4 ∧
    (∀ m : String,
       strContains m "Permission" = false → strContains m "NotAllowedError" = false →
       strContains m "NotFoundError" = false →
       strContains m "Requested device not found" = false →
       strContains m "NotSupportedError" = false →
       strContains m "NotReadableError" = false →
       translateScannerError m = m) := by
  have hloop := scannerLoopAux_exhausts env m4 h0 hfail h4
      numCameraOptions 0 none rfl (by decide)
  have htr : translateScannerError m4 = permissionDeniedMsg := by
    unfold translateScannerError
    rw [if_pos hperm]
  refine ⟨?_, ?_, ?_⟩
  · simp [scannerRun, initScannerRun, staleAt, h0, hloop, htr]
  · intro hcontra
    rw [← hcontra] at hperm
    exact absurd hperm (by decide)
  · intro m hA hB hC hD hE hF
    unfold translateScannerError
    rw [if_neg (by simp [hA, hB]), if_neg (by simp [hC, hD]),
      if_neg (by simp [hE]), if_neg (by simp [hF])]

/-- Witness for C8: all five options fail with the browser's
`NotAllowedError: Permission denied`; the caller receives the translated
permission message, and an unrecognized message passes through unchanged. -/
theorem c8_permission_exhaustion_translated_witness :
    scannerRun ⟨fun _ => .failed "NotAllowedError: Permission denied", none⟩ [] =
      [.initCb false, .errCb permissionDeniedMsg] ∧
    translateScannerError "some other error" = "some other error" := by
  have h := c8_permission_exhaustion_translated
      ⟨fun _ => .failed "NotAllowedError: Permission denied", none⟩ []
      "NotAllowedError: Permission denied" rfl
      (fun k _ => ⟨"NotAllowedError: Permission denied", rfl⟩) rfl (by decide)
  exact ⟨h.1, h.2.2 "some other error" (by decide) (by decide) (by decide)
      (by decide) (by decide) (by decide)⟩

/-- Claim C9: teardown is idempotent — running `safeCleanup` twice equals
running it once (the second run is a no-op on an already-cleaned session,
and the function is total, so it never throws); activating twice in a row
leaks no capture session and never yields two overlapping sessions (second
conjunct, for arbitrary flags); when both activations run on an active,
mounted, quiescent component and the second one's camera start succeeds,
the result is exactly one live decode session (third conjunct); and an
activation arriving during an in-flight initialization is rejected by the
guard and changes nothing (fourth conjunct). -/
theorem c9_teardown_activation_idempotent :
    (∀ s : CompState, safeCleanup (safeCleanup s) = safeCleanup s) ∧
    (∀ (a c o a2 c2 o2 : Bool) (s : CompState), s.leakedLive = 0 →
       (activateStep a2 c2 o2 (activateStep a c o s)).leakedLive = 0 ∧
       liveSessions (activateStep a2 c2 o2 (activateStep a c o s)) ≤ 1) ∧
    (∀ (o : Bool) (s : CompState), s.leakedLive = 0 → s.isInitializing = false →
       s.isCleaningUp = false →
       liveSessions (activateStep true true true (activateStep true true o s)) = 1) ∧
    (∀ (a c o : Bool) (s : CompState), s.isInitializing = true →
       activateStep a c o s = s) := by
  refine ⟨?_, ?_, ?_, ?_⟩
  · intro s
    by_cases h : (s.scanner.isSome && !s.isCleaningUp) = true
    · simp [safeCleanup, h]
    · simp [safeCleanup, h]
  · intro a c o a2 c2 o2 s h
    have h1 := activate_no_leak a c o s h
    have h2 := activate_no_leak a2 c2 o2 _ h1
    exact ⟨h2, liveSessions_le_one _ h2⟩
  · intro o s h0 hini hcl
    obtain ⟨sc, cl, ini, lk⟩ := s
    simp only at h0 hini hcl
    subst h0
    subst hini
    subst hcl
    cases o <;> rcases sc with _ | e <;> rfl
  · intro a c o s h
    simp [activateStep, h]

/-- Witness for C9: double cleanup of a scanning session equals a single
cleanup; a double activation from idle whose second start succeeds yields
exactly one live session; an activation during initialization is a no-op. -/
theorem c9_teardown_activation_idempotent_witness :
    safeCleanup (safeCleanup ⟨some .scanning, false, false, 0⟩) =
      safeCleanup ⟨some .scanning, false, false, 0⟩ ∧
    (activateStep true true true
      (activateStep true true true initialCompState)).leakedLive = 0 ∧
    liveSessions (activateStep true true true
      (activateStep true true true initialCompState)) = 1 ∧
    activateStep true true true ⟨some .scanning, false, true, 0⟩ =
      ⟨some .scanning, false, true, 0⟩ := by
  have h := c9_teardown_activation_idempotent
  exact ⟨h.1 ⟨some .scanning, false, false, 0⟩,
         (h.2.1 true true true true true true initialCompState rfl).1,
         h.2.2.1 true initialCompState rfl rfl rfl,
         h.2.2.2 true true true ⟨some .scanning, false, true, 0⟩ rfl⟩

/-- Claim C10: `isStreamActive` returns true exactly when a stream reference
is held and no acquisition is in flight; and in every reachable
configuration of the interleaved machine in which some task is still inside
the acquisition loop, the same read on the shared state returns false. -/
theorem c10_isStreamActive_characterization :
    (∀ st : ManagerState, isStreamActive st = true ↔
       (st.stream.isSome = true ∧ st.isInitializing = false)) ∧
    (∀ (sup : Bool) (envA envB : Nat → GUMResult) (sched : List Bool),
       ((finalMachine sup envA envB sched).taskA.pc.inAcqLoop ||
        (finalMachine sup envA envB sched).taskB.pc.inAcqLoop) = true →
       (finalMachine sup envA envB sched).shared.readActive = false) := by
  constructor
  · intro st
    simp [isStreamActive]
  · intro sup envA envB sched hin
    obtain ⟨h1, _, _, _, _, _⟩ := finalMachine_inv sup envA envB sched
    unfold Shared.readActive
    rw [h1, hin]
    simp

/-- Witness for C10: a held stream with no acquisition in flight reads
active; after one step of the machine (task A suspended at its first
`getUserMedia`), the read returns false. -/
theorem c10_isStreamActive_characterization_witness :
    isStreamActive ⟨some liveStream, 1, false⟩ = true ∧
    (finalMachine true (fun _ => .ok liveStream) (fun _ => .ok liveStream)
        [true]).shared.readActive = false := by
  have h := c10_isStreamActive_characterization
  exact ⟨(h.1 ⟨some liveStream, 1, false⟩).mpr ⟨rfl, rfl⟩,
         h.2 true (fun _ => .ok liveStream) (fun _ => .ok liveStream) [true] rfl⟩

end QuestDeployment
